import Mathlib

/-!
Verification development for the Kour_Tox_Biller art-remote host.

Shallow embedding of the host-side command-resolution and session engine:
`PCCompanion/auth.py` (credential store), `PCCompanion/performance_cache.py`
(`IntelligentCache`), the favorites-slot decoding of
`PCCompanion/art_remote_server_cross_platform.py` / `optimized_parsers.py`,
and the message dispatcher `CrossPlatformArtRemoteServer.handle_message`.

External collaborators (the OS input-emission layer, the SHA-256 library
routine, the database reader used during a favorites re-scan, the regex
engine of the trackpad branch and the Krita smart-brush switcher module)
are modelled as explicit function parameters; everything else is
translated directly from the Python source.
-/

namespace ArtRemote

/-! ## Python string helpers

`str.strip()` with no argument removes leading and trailing whitespace.
We model the ASCII whitespace set (space, tab, newline, carriage return,
vertical tab, form feed); the wider Unicode set never occurs in the
credential or message data this code handles. -/

def isPySpace (c : Char) : Bool :=
  c = ' ' || c = '\t' || c = '\n' || c = '\r' || c = '\x0b' || c = '\x0c'

/-- Remove leading and trailing characters satisfying `p` (Python `str.strip`). -/
def stripEndsP (p : Char → Bool) (l : List Char) : List Char :=
  ((l.dropWhile p).reverse.dropWhile p).reverse

def pyStripP (p : Char → Bool) (s : String) : String :=
  ⟨stripEndsP p s.data⟩

/-- Python `s.strip()` (no argument): strip surrounding whitespace. -/
def pyStrip (s : String) : String := pyStripP isPySpace s

def isBrace (c : Char) : Bool := c = '\x7b' || c = '\x7d'

/-- Python `s.strip('{}')` as used by the legacy string-payload parsers. -/
def stripBraces (s : String) : String := pyStripP isBrace s

/-! ## JSON values

`json.loads` yields nested dicts/lists/strings/numbers/booleans/None.
Numbers are modelled as rationals (covering both Python ints and the
decimal floats appearing on this wire). -/

inductive JValue where
  | null
  | bool (b : Bool)
  | num (q : Rat)
  | str (s : String)
  | arr (elems : List JValue)
  | obj (fields : List (String × JValue))

/-- Python truthiness of a JSON value (`if not value: ...`). -/
def truthy : JValue → Bool
  | .null => false
  | .bool b => b
  | .num q => !(q == 0)
  | .str s => !(s == "")
  | .arr l => !l.isEmpty
  | .obj l => !l.isEmpty

/-! ## Credential store (`auth.py`, class `SimpleAuth`)

`secrets.token_urlsafe` / `secrets.randbelow` are external randomness:
freshly generated values enter the model as arguments.  `hashlib.sha256`
is an external library routine, passed in as `sha256hex`. -/

structure AuthData where
  token : String
  token_hash : String
  pin : String
deriving DecidableEq

/-- `SimpleAuth._generate_new_auth` (also the body of `regenerate_auth`):
the stored hash is the SHA-256 of the freshly generated token, and the
fresh PIN is stored verbatim. -/
def regenerate_auth (sha256hex : String → String) (newToken newPin : String) : AuthData :=
  { token := newToken, token_hash := sha256hex newToken, pin := newPin }

/-- `SimpleAuth.validate_token`: reject a falsy (empty) presented token,
otherwise hash the presented token and compare with the stored hash. -/
def validate_token (sha256hex : String → String) (ad : AuthData) (provided : String) : Bool :=
  if provided = "" then false
  else sha256hex provided == ad.token_hash

/-- `SimpleAuth.validate_pin`: `provided_pin.strip() == self.auth_data['pin']`. -/
def validate_pin (ad : AuthData) (provided : String) : Bool :=
  pyStrip provided == ad.pin

/-- The shape of an equality comparison performed during validation:
either two hash digests are compared, or the (stripped) raw presented
string is compared with the stored secret. -/
inductive Comparison where
  | hashCmp (presentedHash storedHash : String)
  | rawCmp (presented stored : String)
deriving DecidableEq

def Comparison.isHashCmp : Comparison → Bool
  | .hashCmp _ _ => true
  | .rawCmp _ _ => false

def evalComparison : Comparison → Bool
  | .hashCmp a b => a == b
  | .rawCmp a b => a == b

/-- The comparison `validate_token` performs on a non-empty presented
token: `provided_hash == self.auth_data['token_hash']`. -/
def tokenComparison (sha256hex : String → String) (ad : AuthData) (provided : String) :
    Comparison :=
  .hashCmp (sha256hex provided) ad.token_hash

/-- The comparison `validate_pin` performs:
`provided_pin.strip() == self.auth_data['pin']`. -/
def pinComparison (ad : AuthData) (provided : String) : Comparison :=
  .rawCmp (pyStrip provided) ad.pin

/-- `validate_token` on a JSON field value: a falsy value returns `False`
early; a truthy non-string raises (`.encode` on a non-string). -/
def validate_token_j (sha256hex : String → String) (ad : AuthData) :
    JValue → Except String Bool
  | .null => .ok false
  | .bool false => .ok false
  | .bool true => .error "AttributeError"
  | .num q => if q = 0 then .ok false else .error "AttributeError"
  | .str s => .ok (validate_token sha256hex ad s)
  | .arr l => if l.isEmpty then .ok false else .error "AttributeError"
  | .obj l => if l.isEmpty then .ok false else .error "AttributeError"

/-- `validate_pin` on a JSON field value: `.strip()` raises on any
non-string, with no falsy guard. -/
def validate_pin_j (ad : AuthData) : JValue → Except String Bool
  | .str s => .ok (validate_pin ad s)
  | _ => .error "AttributeError"

/-- `SimpleAuth.is_authenticated`: empty message is falsy and rejected;
a message carrying a `token` field is judged by the token alone; only a
message with no `token` field falls back to the `pin` field. -/
def is_authenticated (sha256hex : String → String) (ad : AuthData)
    (info : List (String × JValue)) : Except String Bool :=
  if info.isEmpty then .ok false
  else
    match info.lookup "token" with
    | some tv => validate_token_j sha256hex ad tv
    | none =>
      match info.lookup "pin" with
      | some pv => validate_pin_j ad pv
      | none => .ok false

/-! ### Strip lemmas -/

theorem stripEndsP_cons_drop (p : Char → Bool) (c : Char) (hc : p c = true)
    (l : List Char) : stripEndsP p (c :: l) = stripEndsP p l := by
  simp [stripEndsP, List.dropWhile_cons, hc]

theorem stripEndsP_concat_drop (p : Char → Bool) (c : Char) (hc : p c = true) :
    ∀ l : List Char, stripEndsP p (l ++ [c]) = stripEndsP p l := by
  intro l
  induction l with
  | nil => simp [stripEndsP, List.dropWhile_cons, hc]
  | cons a t ih =>
    by_cases ha : p a = true
    · simpa [stripEndsP, List.dropWhile_cons, ha] using ih
    · simp only [List.cons_append, stripEndsP, List.dropWhile_cons, ha]
      simp only [Bool.false_eq_true, if_false]
      have hrev : (a :: (t ++ [c])).reverse = c :: (a :: t).reverse := by
        simp
      rw [hrev, List.dropWhile_cons, hc]
      simp

theorem pyStrip_pad (s : String) :
    pyStrip (" " ++ s ++ "\n") = pyStrip s := by
  have hdata : (" " ++ s ++ "\n").data = ' ' :: (s.data ++ ['\n']) := rfl
  unfold pyStrip pyStripP
  rw [hdata, stripEndsP_cons_drop isPySpace ' ' (by decide),
    stripEndsP_concat_drop isPySpace '\n' (by decide)]

theorem isEmpty_false_of_lookup_eq_some {α : Type} {l : List (String × α)}
    {k : String} {v : α} (h : l.lookup k = some v) : l.isEmpty = false := by
  cases l with
  | nil => simp [List.lookup] at h
  | cons a t => rfl

/-! ### Auth fixtures for concrete evaluation

`shaFix` stands in for the external SHA-256 routine in closed statements;
it is injective, which is all the pure model ever uses about the digest. -/

def shaFix : String → String := fun s => "#" ++ s

def adFix : AuthData := { token := "tok", token_hash := "#tok", pin := "482913" }

/-! ### Claim theorems: credential store -/

/-- C3 counterexample: a message carrying the currently valid short code
together with an invalid `token` field is rejected by `is_authenticated`,
so possession of a valid credential form is not sufficient whenever a
`token` field is also present. -/
theorem C3_counterexample :
    validate_pin adFix "482913" = true
    ∧ is_authenticated shaFix adFix
        [("token", .str "wrong"), ("pin", .str "482913")] = .ok false := by
  exact ⟨rfl, rfl⟩

/-- C3 (amended): `is_authenticated` returns true when the message carries
a `token` field holding the valid full secret, or carries the valid short
code in its `pin` field with no `token` field at all; a message with a
`token` field is judged by that token alone. -/
theorem C3_either_form_when_unshadowed (sha256hex : String → String)
    (ad : AuthData) (info : List (String × JValue)) (t p : String) :
    (info.lookup "token" = some (.str t) → validate_token sha256hex ad t = true →
      is_authenticated sha256hex ad info = .ok true)
    ∧ (info.lookup "token" = none → info.lookup "pin" = some (.str p) →
      validate_pin ad p = true →
      is_authenticated sha256hex ad info = .ok true) := by
  constructor
  · intro h1 h2
    unfold is_authenticated
    rw [isEmpty_false_of_lookup_eq_some h1, h1]
    simp [validate_token_j, h2]
  · intro h1 h2 h3
    unfold is_authenticated
    rw [isEmpty_false_of_lookup_eq_some h2, h1, h2]
    simp [validate_pin_j, h3]

/-- Witness for C3: the valid token alone authenticates, and the valid PIN
alone (no token field present) authenticates. -/
theorem C3_witness :
    is_authenticated shaFix adFix [("token", .str "tok")] = .ok true
    ∧ is_authenticated shaFix adFix
        [("pin", .str "482913"), ("client_info", .obj [])] = .ok true :=
  ⟨(C3_either_form_when_unshadowed shaFix adFix [("token", .str "tok")]
      "tok" "482913").1 rfl rfl,
   (C3_either_form_when_unshadowed shaFix adFix
      [("pin", .str "482913"), ("client_info", .obj [])] "tok" "482913").2
      rfl rfl rfl⟩

/-- C4 counterexample: the comparison `validate_pin` performs is a raw
string comparison of the stripped presented value with the stored code,
not a comparison of hashes — refuting the claim that both credential
forms are compared hash-to-hash. -/
theorem C4_counterexample :
    (pinComparison adFix "111111").isHashCmp = false
    ∧ validate_pin adFix "111111" = evalComparison (pinComparison adFix "111111") :=
  ⟨rfl, rfl⟩

/-- C4 (amended): token validation compares SHA-256 digests (a hash
comparison), while PIN validation compares the stripped presented string
directly with the stored code; each validator returns exactly the result
of its comparison (after the token path's empty-string guard). -/
theorem C4_comparison_shapes (sha256hex : String → String) (ad : AuthData)
    (p : String) :
    (tokenComparison sha256hex ad p).isHashCmp = true
    ∧ (pinComparison ad p).isHashCmp = false
    ∧ validate_token sha256hex ad p
        = (if p = "" then false else evalComparison (tokenComparison sha256hex ad p))
    ∧ validate_pin ad p = evalComparison (pinComparison ad p) :=
  ⟨rfl, rfl, rfl, rfl⟩

/-- C8: after `regenerate_auth` replaces the credential pair with fresh
values, both new forms validate and both prior forms are rejected, given
that the fresh values differ from the old ones (and that the digest
routine is injective, the fresh token is non-empty, and the PINs are
whitespace-free as generated). -/
theorem C8_regenerate_swaps_credentials (sha256hex : String → String)
    (old : AuthData) (t p : String) (hinj : Function.Injective sha256hex)
    (ht : t ≠ "") (htne : t ≠ old.token)
    (hp : pyStrip p = p) (hpne : pyStrip old.pin ≠ p) :
    validate_token sha256hex (regenerate_auth sha256hex t p) t = true
    ∧ validate_pin (regenerate_auth sha256hex t p) p = true
    ∧ validate_token sha256hex (regenerate_auth sha256hex t p) old.token = false
    ∧ validate_pin (regenerate_auth sha256hex t p) old.pin = false := by
  refine ⟨?_, ?_, ?_, ?_⟩
  · simp [validate_token, regenerate_auth, ht]
  · simp [validate_pin, regenerate_auth, hp]
  · unfold validate_token regenerate_auth
    by_cases hot : old.token = ""
    · simp [hot]
    · simp only [hot, if_false]
      simp only [beq_eq_false_iff_ne, ne_eq]
      intro heq
      exact htne (hinj heq).symm
  · simp [validate_pin, regenerate_auth, hpne]

/-- Witness for C8 at concrete fresh credentials. -/
theorem C8_witness :
    validate_token id (regenerate_auth id "b" "2") "b" = true
    ∧ validate_pin (regenerate_auth id "b" "2") "2" = true
    ∧ validate_token id (regenerate_auth id "b" "2") "a" = false
    ∧ validate_pin (regenerate_auth id "b" "2") "1" = false :=
  C8_regenerate_swaps_credentials id { token := "a", token_hash := "a", pin := "1" }
    "b" "2" (fun _ _ h => h) (by decide) (by decide) rfl (by decide)

/-- C10: `validate_pin` strips surrounding whitespace from the presented
value only — it accepts `s` exactly when the stripped `s` equals the
stored code verbatim, and is invariant under padding the presented value
with surrounding whitespace. -/
theorem C10_validate_pin_strips_presented (ad : AuthData) (s : String) :
    (validate_pin ad s = true ↔ pyStrip s = ad.pin)
    ∧ validate_pin ad (" " ++ s ++ "\n") = validate_pin ad s := by
  constructor
  · simp [validate_pin]
  · simp [validate_pin, pyStrip_pad]

/-! ## Association-list primitives for Python dicts -/

/-- Python `d[k] = v` on a string-keyed dict, as an association list. -/
def setKey {α : Type} (l : List (String × α)) (k : String) (v : α) :
    List (String × α) :=
  (k, v) :: l.filter (fun e => !(e.1 == k))

/-- Python `d.pop(k, None)`. -/
def removeKey {α : Type} (l : List (String × α)) (k : String) :
    List (String × α) :=
  l.filter (fun e => !(e.1 == k))

theorem lookup_setKey_self {α : Type} (l : List (String × α)) (k : String)
    (v : α) : (setKey l k v).lookup k = some v := by
  simp [setKey, List.lookup]

/-! ## Shortcut cache (`performance_cache.py`, class `IntelligentCache`)

Wall-clock instants and file modification times (`time.time()`,
`Path.stat().st_mtime`) are totally ordered reals on the Python side;
they are modelled as rationals.  The file system is an explicit map
`fs : String → Option Rat` (`none` = the path is missing or `stat`
raises). -/

namespace IntelligentCache

structure CacheState (α : Type) where
  cache : List (String × α)
  timestamps : List (String × Rat)
  dependencies : List (String × List (String × Rat))
  default_ttl : Rat

/-- `IntelligentCache._is_expired`. -/
def is_expired {α : Type} (st : CacheState α) (key : String) (ttl : Rat)
    (now : Rat) : Bool :=
  match st.timestamps.lookup key with
  | none => true
  | some ts => decide (now - ts > ttl)

/-- `IntelligentCache._check_file_dependencies`: a tracked path whose
current modification time exceeds the last-seen one — or which no longer
stats — marks the entry changed. -/
def check_file_dependencies {α : Type} (st : CacheState α)
    (fs : String → Option Rat) (key : String) : Bool :=
  match st.dependencies.lookup key with
  | none => false
  | some deps =>
    deps.any (fun d =>
      match fs d.1 with
      | none => true
      | some cur => decide (cur > d.2))

/-- `IntelligentCache.invalidate`: evicts value, timestamp and dependency
set together. -/
def invalidate {α : Type} (st : CacheState α) (key : String) : CacheState α :=
  { st with
    cache := removeKey st.cache key
    timestamps := removeKey st.timestamps key
    dependencies := removeKey st.dependencies key }

/-- `IntelligentCache.get`: note that expiry is checked against
`self.default_ttl`, not a per-entry ttl. -/
def get {α : Type} (st : CacheState α) (fs : String → Option Rat) (now : Rat)
    (key : String) : Option α × CacheState α :=
  match st.cache.lookup key with
  | some v =>
    if !is_expired st key st.default_ttl now
        && !check_file_dependencies st fs key then (some v, st)
    else (none, invalidate st key)
  | none => (none, st)

/-- `IntelligentCache.set`: the `ttl` argument is accepted and silently
dropped, exactly as in the source (`set` never stores it); dependencies
are recorded only when `file_deps` is truthy, keeping each tracked path's
modification time at store time. -/
def set {α : Type} (st : CacheState α) (now : Rat) (key : String) (value : α)
    (ttl : Option Rat) (file_deps : List String) (fs : String → Option Rat) :
    CacheState α :=
  { st with
    cache := setKey st.cache key value
    timestamps := setKey st.timestamps key now
    dependencies :=
      if file_deps.isEmpty then st.dependencies
      else setKey st.dependencies key
        (file_deps.filterMap (fun p => (fs p).map (fun m => (p, m)))) }

end IntelligentCache

/-- C5: failing input for the cache-validity claim.  An entry stored with
a supplied ttl of 60 (cache default 300, no tracked files) is still a
cache hit at age 120: `set` drops its `ttl` argument, so `get` judges
freshness by the default ttl alone, contradicting the claimed invariant
`now − creation time < supplied ttl`. -/
theorem C5_supplied_ttl_ignored :
    (IntelligentCache.get
      (IntelligentCache.set
        { cache := [], timestamps := [], dependencies := [], default_ttl := 300 }
        0 "csp_tool_db" 42 (some 60) [] (fun _ => none))
      (fun _ => none) 120 "csp_tool_db").1 = some 42
    ∧ ¬ ((120 : Rat) - 0 < 60) := by
  constructor
  · simp only [IntelligentCache.get, IntelligentCache.set,
      IntelligentCache.is_expired, IntelligentCache.check_file_dependencies,
      setKey, List.filter_nil, List.lookup, beq_self_eq_true]
    norm_num
  · norm_num

/-! ## Favorites-slot adapter

Step 2 of `CrossPlatformArtRemoteServer.load_csp_shortcuts` (and, with the
same encoding, `OptimizedCSPParser.load_tool_shortcuts`): the tool store's
rows `(NodeName, NodeShortCutKey)` are read through the SQL filter
`NodeShortCutKey BETWEEN f_key_offset+1 AND f_key_offset+12` and each
surviving row is assigned to slot `F(NodeShortCutKey - f_key_offset)`.
The database reader is external; the rows it returns are the input. -/

/-- Entry of the `ultimate_shortcuts` favorites table.  Only the fields
the dispatcher later reads (`command`, `description`, `icon`) plus the
provenance tag are modelled. -/
structure FavEntry where
  command : String
  description : String
  icon : String
  source : String
deriving DecidableEq

/-- Python `sub in s` on strings. -/
def pyContains (s sub : String) : Bool := (s.splitOn sub).length ≥ 2

/-- Python `s.startswith(p)`. -/
def pyStartsWith (s p : String) : Bool := p.data.isPrefixOf s.data

/-- `CrossPlatformArtRemoteServer.get_tool_icon`. -/
def get_tool_icon (tool_name : String) : String :=
  let n := tool_name.toLower
  if pyContains n "watercolor" then "💧"
  else if pyContains n "brush" then "🖌️"
  else if pyContains n "pen" then "🖊️"
  else if pyContains n "pencil" then "✏️"
  else if pyContains n "eraser" then "🧽"
  else if pyContains n "airbrush" then "🎨"
  else "🔧"

/-- `f_key_offset = 36`: the base offset of the F-key encoding. -/
def f_key_offset : Int := 36

/-- The favorites entry built for one tool row. -/
def toolFavEntry (node_name : String) (shortcut_key : Int) : FavEntry :=
  { command := "custom_tool_" ++ toString shortcut_key
    description := node_name
    icon := get_tool_icon node_name
    source := "tool" }

/-- The loop body of step 2: each row updates `ultimate_shortcuts[f_key]`. -/
def load_tool_aux (records : List (String × Int))
    (tbl : List (String × FavEntry)) : List (String × FavEntry) :=
  match records with
  | [] => tbl
  | r :: rest =>
    load_tool_aux rest
      (setKey tbl ("F" ++ toString (r.2 - f_key_offset)) (toolFavEntry r.1 r.2))

/-- Step 2 of `load_csp_shortcuts`: the SQL `BETWEEN` filter composed with
the loop.  `tbl` is the table built so far (the menu-shortcut entries of
step 1); rows outside the window produce no entry and no error. -/
def load_tool_favorites (records : List (String × Int))
    (tbl : List (String × FavEntry)) : List (String × FavEntry) :=
  load_tool_aux
    (records.filter (fun r =>
      decide (f_key_offset + 1 ≤ r.2) && decide (r.2 ≤ f_key_offset + 12)))
    tbl

theorem mem_load_tool_aux (records : List (String × Int)) :
    ∀ (tbl : List (String × FavEntry)) (k : String) (e : FavEntry),
      (k, e) ∈ load_tool_aux records tbl →
      (k, e) ∈ tbl
      ∨ ∃ nm raw, (nm, raw) ∈ records
          ∧ k = "F" ++ toString (raw - f_key_offset) ∧ e = toolFavEntry nm raw := by
  induction records with
  | nil => intro tbl k e h; exact Or.inl h
  | cons r rest ih =>
    intro tbl k e h
    rcases ih _ k e h with hmem | ⟨nm, raw, hr, hk, he⟩
    · rcases List.mem_cons.mp hmem with heq | hmem₂
      · refine Or.inr ⟨r.1, r.2, List.mem_cons_self _ _, ?_, ?_⟩
        · exact congrArg Prod.fst heq
        · exact congrArg Prod.snd heq
      · exact Or.inl (List.mem_of_mem_filter hmem₂)
    · exact Or.inr ⟨nm, raw, List.mem_cons_of_mem _ hr, hk, he⟩

/-- C7: a tool record produces a favorites entry exactly when its raw
value lies in `[f_key_offset+1, f_key_offset+12] = [37, 48]`, landing in
slot `F(raw − 36)`; raw values outside the window are ignored (no entry,
no error), and every entry of the loaded table comes from an in-window
record under that same decoding. -/
theorem C7_f_key_window (name : String) (raw : Int)
    (records : List (String × Int)) :
    (f_key_offset + 1 ≤ raw → raw ≤ f_key_offset + 12 →
      load_tool_favorites [(name, raw)] []
        = [("F" ++ toString (raw - f_key_offset), toolFavEntry name raw)])
    ∧ (raw < f_key_offset + 1 ∨ f_key_offset + 12 < raw →
      load_tool_favorites [(name, raw)] [] = [])
    ∧ (∀ k e, (k, e) ∈ load_tool_favorites records [] →
      ∃ nm raw2, (nm, raw2) ∈ records
        ∧ f_key_offset + 1 ≤ raw2 ∧ raw2 ≤ f_key_offset + 12
        ∧ k = "F" ++ toString (raw2 - f_key_offset) ∧ e = toolFavEntry nm raw2) := by
  refine ⟨?_, ?_, ?_⟩
  · intro h1 h2
    simp [load_tool_favorites, load_tool_aux, setKey, h1, h2]
  · intro h
    rcases h with h | h
    · simp [load_tool_favorites, load_tool_aux, not_le.mpr h]
    · simp [load_tool_favorites, load_tool_aux, not_le.mpr h]
  · intro k e h
    rcases mem_load_tool_aux _ _ k e h with hmem | ⟨nm, raw2, hr, hk, he⟩
    · simp at hmem
    · have hr₂ := List.mem_filter.mp hr
      refine ⟨nm, raw2, hr₂.1, ?_, ?_, hk, he⟩
      · have := hr₂.2
        simp only [Bool.and_eq_true, decide_eq_true_eq] at this
        exact this.1
      · have := hr₂.2
        simp only [Bool.and_eq_true, decide_eq_true_eq] at this
        exact this.2

/-- Witness for C7: raw value `41 = 36 + 5` resolves to slot `F5`; raw
value `49` is ignored. -/
theorem C7_witness :
    load_tool_favorites [("Watercolor", 41)] []
      = [("F5", toolFavEntry "Watercolor" 41)]
    ∧ load_tool_favorites [("Gouache", 49)] [] = [] :=
  ⟨(C7_f_key_window "Watercolor" 41 []).1 (by decide) (by decide),
   (C7_f_key_window "Gouache" 49 []).2.1 (Or.inr (by decide))⟩

/-! ## Command dispatcher
(`CrossPlatformArtRemoteServer.handle_message` and its helpers)

An inbound WebSocket message either fails `json.loads`
(`Wire.malformed`) or parses to a `JValue`.  Invocations of the external
input-emission collaborator (`pyautogui`) are recorded as an `Emission`
trace; messages sent back on the channel are recorded as `Response`
values.  A handler body that raises an uncaught Python exception is an
`Except.error`, which the dispatcher's outer `except` turns into a single
`{"status": "error"}` response. -/

inductive Emission where
  | press (key : String)
  | hotkey (keys : List String)
  | scroll (amount : Int)
  | drag (dx dy : Int)
  | mouseDown
  | moveBy (dx dy : Rat)
  | mouseUp
deriving DecidableEq

/-- One slot of the favorites snapshot sent for `get_favorites`. -/
structure SlotInfo where
  assigned : Bool
  icon : String
  description : String
  command : Option String
deriving DecidableEq

inductive Response where
  /-- `{'type': 'error', 'message': ...}` (unauthenticated sender). -/
  | errorType (message : String)
  /-- `{"status": ..., "action": ...}` (the per-message confirmation). -/
  | ack (status : String) (action : String)
  /-- `{"status": "error", "message": ...}` (outer exception handler). -/
  | errorStatus (message : String)
  /-- `{"action": "favorites_data", "favorites": ..., "total_assigned": ...}`. -/
  | favoritesData (favorites : List (String × SlotInfo)) (total_assigned : Nat)
deriving DecidableEq

/-- Python `str()` of a JSON value, as interpolated by f-strings.  Scalars
are rendered faithfully; the container renderings are abbreviated (the
dispatcher only ever uses them to form shortcut-table keys, which match
no table entry either way), and a non-integral number is rendered as a
fraction rather than in Python float notation. -/
def pyStr : JValue → String
  | .null => "None"
  | .bool true => "True"
  | .bool false => "False"
  | .num q => if q.den = 1 then toString q.num else toString q
  | .str s => s
  | .arr _ => "[…]"
  | .obj _ => "\x7b…\x7d"

/-- `v == "t"` where `v` is a decoded JSON value and `"t"` a Python string
literal: equal only when `v` is that string. -/
def jEqStr (v : JValue) (t : String) : Bool :=
  match v with
  | .str s => s == t
  | _ => false

/-- Python `s.isdigit()` (ASCII digits; false on the empty string). -/
def pyIsDigit (s : String) : Bool :=
  !s.isEmpty && s.data.all Char.isDigit

/-- Accumulate the value of a digit string; `none` on a non-digit. -/
def digitsVal (l : List Char) : Option Nat :=
  l.foldl (fun acc c =>
    match acc with
    | none => none
    | some n => if c.isDigit then some (n * 10 + (c.toNat - 48)) else none)
    (some 0)

/-- Python `int(s)`: surrounding whitespace and one sign allowed, then
decimal digits; `none` models `ValueError`. -/
def pyIntOfString (s : String) : Option Int :=
  match (pyStrip s).data with
  | '-' :: rest =>
    if rest.isEmpty then none else (digitsVal rest).map (fun n => -(n : Int))
  | '+' :: rest =>
    if rest.isEmpty then none else (digitsVal rest).map (fun n => (n : Int))
  | t => if t.isEmpty then none else (digitsVal t).map (fun n => (n : Int))

/-- Unsigned decimal literal (`"12"`, `"1.5"`, `".5"`, `"1."`). -/
def parseUnsignedDec (l : List Char) : Option Rat :=
  match l.span (fun c => !(c == '.')) with
  | (ip, []) => if ip.isEmpty then none else (digitsVal ip).map (fun n => (n : Rat))
  | (ip, _ :: fp) =>
    if fp.contains '.' then none
    else if ip.isEmpty && fp.isEmpty then none
    else
      match digitsVal ip, digitsVal fp with
      | some a, some b => some ((a : Rat) + (b : Rat) / ((10 : Rat) ^ fp.length))
      | _, _ => none

/-- Python `float(s)` on the decimal forms this wire carries (exponent,
infinity and NaN spellings are not modelled); `none` models `ValueError`. -/
def pyFloatOfString (s : String) : Option Rat :=
  match (pyStrip s).data with
  | '-' :: r => (parseUnsignedDec r).map Neg.neg
  | '+' :: r => parseUnsignedDec r
  | r => parseUnsignedDec r

/-- Python `float(v)` on a decoded JSON value (`TypeError`/`ValueError`
as `none`). -/
def tryFloat : JValue → Option Rat
  | .num q => some q
  | .bool b => some (if b then 1 else 0)
  | .str s => pyFloatOfString s
  | _ => none

/-- `s.split(marker)[1]`: the segment after the first occurrence of
`marker`; `none` when `marker not in s`. -/
def strAfterFirst (s marker : String) : Option String :=
  match s.splitOn marker with
  | _ :: x :: _ => some x
  | _ => none

/-- `s.split(sep)[0]`. -/
def firstSeg (s sep : String) : String := (s.splitOn sep).headD ""

/-- The `part.split(',')[0].split('}')[0].strip()` idiom of the legacy
string-payload parser in the `select_*` branch. -/
def extractField (s marker fallback : String) : String :=
  match strAfterFirst s marker with
  | some rest => pyStrip (firstSeg (firstSeg rest ",") "\x7d")
  | none => fallback

/-! ### Built-in shortcut tables (`self.app_configs`) -/

def kritaWindows : List (String × List String) :=
  [("undo", ["ctrl", "z"]), ("redo", ["ctrl", "shift", "z"]),
   ("save", ["ctrl", "s"]),
   ("zoom_in", ["ctrl", "+"]), ("zoom_out", ["ctrl", "-"]),
   ("zoom_fit", ["ctrl", "0"]),
   ("rotate_left", ["ctrl", "["]), ("rotate_right", ["ctrl", "]"]),
   ("reset_rotation", ["5"]), ("reset_zoom", ["1"]),
   ("tool_brush", ["b"]), ("tool_pencil", ["n"]), ("tool_airbrush", ["a"]),
   ("tool_eraser", ["e"]), ("tool_select", ["ctrl", "r"]), ("tool_pan", ["h"]),
   ("tool_eyedropper", ["p"]), ("tool_clone", ["c"]), ("tool_healing", ["h"]),
   ("tool_transform", ["ctrl", "t"]),
   ("layer_new", ["ctrl", "shift", "n"]), ("layer_delete", ["delete"]),
   ("layer_duplicate", ["ctrl", "j"]), ("layer_merge_down", ["ctrl", "e"]),
   ("layer_up", ["page_up"]), ("layer_down", ["page_down"]),
   ("layer_folder", ["ctrl", "g"]),
   ("brush_size_up", ["]"]), ("brush_size_down", ["["]),
   ("brush_opacity_up", ["o"]), ("brush_opacity_down", ["shift", "o"]),
   ("brush_flow_up", ["shift", "]"]), ("brush_flow_down", ["shift", "["]),
   ("toggle_fullscreen", ["tab"]), ("mirror_view", ["m"]),
   ("grid_toggle", ["shift", ";"])]

def kritaDarwin : List (String × List String) :=
  [("undo", ["cmd", "z"]), ("redo", ["cmd", "shift", "z"]),
   ("save", ["cmd", "s"]),
   ("zoom_in", ["cmd", "+"]), ("zoom_out", ["cmd", "-"]),
   ("zoom_fit", ["cmd", "0"]),
   ("rotate_left", ["4"]), ("rotate_right", ["6"]),
   ("reset_rotation", ["5"]), ("reset_zoom", ["1"]),
   ("tool_brush", ["b"]), ("tool_pencil", ["n"]), ("tool_airbrush", ["a"]),
   ("tool_eraser", ["e"]), ("tool_select", ["ctrl", "r"]), ("tool_pan", ["h"]),
   ("tool_eyedropper", ["p"]), ("tool_clone", ["c"]), ("tool_healing", ["h"]),
   ("tool_transform", ["cmd", "t"]),
   ("layer_new", ["cmd", "shift", "n"]), ("layer_delete", ["delete"]),
   ("layer_duplicate", ["cmd", "j"]), ("layer_merge_down", ["cmd", "e"]),
   ("layer_up", ["page_up"]), ("layer_down", ["page_down"]),
   ("layer_folder", ["cmd", "g"]),
   ("brush_size_up", ["]"]), ("brush_size_down", ["["]),
   ("brush_opacity_up", ["o"]), ("brush_opacity_down", ["shift", "o"]),
   ("brush_flow_up", ["shift", "]"]), ("brush_flow_down", ["shift", "["]),
   ("toggle_fullscreen", ["tab"]), ("mirror_view", ["m"]),
   ("grid_toggle", ["shift", ";"])]

def cspWindows : List (String × List String) :=
  [("undo", ["ctrl", "z"]), ("redo", ["ctrl", "y"]),
   ("zoom_in", ["ctrl", "+"]), ("zoom_out", ["ctrl", "-"]),
   ("rotate_left", ["ctrl", "shift", "["]), ("rotate_right", ["ctrl", "shift", "]"]),
   ("tool_brush", ["b"]), ("tool_pen", ["p"]), ("tool_pencil", ["c"]),
   ("tool_airbrush", ["a"]), ("tool_decoration", ["d"]), ("tool_blend", ["j"]),
   ("tool_liquify", ["q"]), ("tool_eraser", ["e"]), ("tool_pan", ["h"]),
   ("tool_select", ["m"]),
   ("layer_new", ["ctrl", "shift", "n"]), ("layer_delete", ["delete"]),
   ("brush_size_up", ["]"]), ("brush_size_down", ["["])]

def cspDarwin : List (String × List String) :=
  [("undo", ["ctrl", "z"]), ("redo", ["ctrl", "y"]),
   ("zoom_in", ["ctrl", "+"]), ("zoom_out", ["ctrl", "-"]),
   ("rotate_left", ["ctrl", "shift", "["]), ("rotate_right", ["ctrl", "shift", "]"]),
   ("tool_brush", ["b"]), ("tool_pen", ["p"]), ("tool_pencil", ["c"]),
   ("tool_airbrush", ["a"]), ("tool_decoration", ["d"]), ("tool_blend", ["j"]),
   ("tool_liquify", ["q"]), ("tool_eraser", ["e"]), ("tool_pan", ["h"]),
   ("tool_select", ["m"]),
   ("layer_new", ["ctrl", "shift", "n"]), ("layer_delete", ["delete"]),
   ("brush_size_up", ["]"]), ("brush_size_down", ["["])]

/-- `self.app_configs[app]['shortcuts'][platform]`. -/
def app_configs : List (String × List (String × List (String × List String))) :=
  [("krita", [("Windows", kritaWindows), ("Darwin", kritaDarwin)]),
   ("clip_studio_paint", [("Windows", cspWindows), ("Darwin", cspDarwin)])]

/-- The environment the dispatcher runs in: the host platform, the
application detected just before branching, and the external
collaborators — the favorites table a `get_favorites` re-scan returns,
the Krita smart-brush switcher module, and the regex engine used by the
trackpad branch's string path. -/
structure Env where
  platform : String
  current_app : Option String
  rescan : List (String × FavEntry)
  kritaBrush : JValue → JValue → List Emission
  regexDeltas : String → Rat × Rat

/-- `CrossPlatformArtRemoteServer.execute_app_shortcut`: resolve the
action in the current application's platform table and invoke the
emission collaborator once; every missing link only logs and emits
nothing (any `pyautogui` failure is caught inside). -/
def execute_app_shortcut (env : Env) (action : String) : List Emission :=
  match env.current_app with
  | none => []
  | some app =>
    match app_configs.lookup app with
    | none => []
    | some platMap =>
      match platMap.lookup env.platform with
      | none => []
      | some table =>
        if table.isEmpty then []
        else
          match table.lookup action with
          | none => []
          | some [] => []
          | some [k] => [.press k]
          | some ks => [.hotkey ks]

/-- `CrossPlatformArtRemoteServer.handle_zoom`: a falsy value is ignored;
a string payload is scanned for `direction=out`; a dict payload reads
`direction` (default `'in'`); any other truthy payload raises at `.get`.
The emission is a hard-coded `cmd +` / `cmd -` hotkey — the intensity
field is never read. -/
def handle_zoom (value : JValue) : Except String (List Emission) :=
  if !truthy value then .ok []
  else
    match value with
    | .str s =>
      if pyContains s "direction=out" then .ok [.hotkey ["cmd", "-"]]
      else .ok [.hotkey ["cmd", "+"]]
    | .obj fields =>
      let direction := (fields.lookup "direction").getD (.str "in")
      if jEqStr direction "in" then .ok [.hotkey ["cmd", "+"]]
      else .ok [.hotkey ["cmd", "-"]]
    | _ => .error "AttributeError"

/-- `CrossPlatformArtRemoteServer.handle_rotate`. -/
def handle_rotate (degrees : JValue) : Except String (List Emission) :=
  match degrees with
  | .null => .ok []
  | .str s =>
    let rotation : Rat :=
      if pyContains s "degrees=" then
        match strAfterFirst s "degrees=" with
        | some rest => (pyFloatOfString (stripBraces rest)).getD 15
        | none => 15
      else 0
    if rotation > 0 then .ok [.hotkey ["shift", "6"]] else .ok [.press "-"]
  | .num q => if q > 0 then .ok [.hotkey ["shift", "6"]] else .ok [.press "-"]
  | .bool b => if b then .ok [.hotkey ["shift", "6"]] else .ok [.press "-"]
  | _ => .error "TypeError"

/-- `CrossPlatformArtRemoteServer.handle_trackpad_pan`: fully wrapped in
`try/except`, so it never raises; an unparsable dict delta yields no
emission, a string payload goes through the regex engine. -/
def handle_trackpad_pan (env : Env) (value : JValue) : List Emission :=
  match value with
  | .obj fields =>
    match tryFloat ((fields.lookup "deltaX").getD (.num 0)),
        tryFloat ((fields.lookup "deltaY").getD (.num 0)) with
    | some dx, some dy => [.mouseDown, .moveBy (dx * 3) (dy * 3), .mouseUp]
    | _, _ => []
  | .str s => [.mouseDown, .moveBy ((env.regexDeltas s).1 * 3) ((env.regexDeltas s).2 * 3), .mouseUp]
  | _ => []

/-- The `direction`-extraction idiom shared by the `scroll` and
`canvas_pan` branches: dict field first, then the legacy string scan. -/
def directionOf (value : JValue) (leftName rightName : String) : JValue :=
  let d0 : JValue :=
    match value with
    | .obj fields => (fields.lookup "direction").getD .null
    | _ => .null
  if !truthy d0 then
    match value with
    | .str s =>
      if pyContains s ("direction=" ++ leftName) then .str leftName
      else if pyContains s ("direction=" ++ rightName) then .str rightName
      else d0
    | _ => d0
  else d0

/-- The `scroll` branch of `handle_message`. -/
def scrollBranch (value : JValue) : List Emission :=
  let d := directionOf value "up" "down"
  if jEqStr d "up" then [.scroll 3]
  else if jEqStr d "down" then [.scroll (-3)]
  else []

/-- The `canvas_pan` branch: switch to the hand tool, then drag. -/
def canvasPanBranch (value : JValue) : List Emission :=
  let d := directionOf value "left" "right"
  .press "h" ::
    (if jEqStr d "left" then [.drag (-100) 0]
     else if jEqStr d "right" then [.drag 100 0]
     else [])

/-- The `tool` branch: form `f"tool_{tool_name}"` and resolve it as an
application shortcut. -/
def toolBranch (env : Env) (value : JValue) : List Emission :=
  let name0 : JValue :=
    match value with
    | .obj fields => (fields.lookup "name").getD .null
    | _ => .null
  let name1 : JValue :=
    if !truthy name0 then
      match value with
      | .str s =>
        match strAfterFirst s "name=" with
        | some rest => .str (stripBraces rest)
        | none => name0
      | _ => name0
    else name0
  execute_app_shortcut env ("tool_" ++ pyStr name1)

/-- `csp_shortcut_map` of the `select_*` branch. -/
def csp_shortcut_map : List (String × String) :=
  [("pen_group", "p"), ("brush_group", "b"), ("blend_group", "j"),
   ("eraser", "e"), ("selection", "m"), ("fill", "g"), ("eyedropper", "i")]

/-- The `select_brush` / `select_subtool` / `select_tool` branch.  A
non-string tool name raises at `.lower()`; in the favorites path a
non-string uuid raises at `.startswith`; the Krita path delegates to the
smart-brush switcher module (which never raises upward). -/
def selectBranch (env : Env) (value : JValue) : Except String (List Emission) :=
  let names : JValue × JValue × JValue :=
    match value with
    | .obj fields =>
      ((fields.lookup "tool").getD (.str "Unknown"),
       ((fields.lookup "subtool_name").getD
         ((fields.lookup "tool_name").getD
           ((fields.lookup "name").getD (.str "Unknown"))),
        (fields.lookup "subtool_uuid").getD
          ((fields.lookup "uuid").getD (.str ""))))
    | .str s =>
      (.str (extractField s "tool=" "Unknown"),
       (.str (extractField s "tool_name=" "Unknown"),
        .str (extractField s "subtool_uuid=" "")))
    | _ => (.str "Unknown", (.str "Unknown", .str ""))
  match names.1 with
  | .str t =>
    if t.toLower == "favorites" then
      match names.2.2 with
      | .str f =>
        if pyStartsWith f "F" && pyIsDigit (f.drop 1) then .ok [.press f.toLower]
        else .ok []
      | _ => .error "AttributeError"
    else if pyStartsWith t "krita_" && env.current_app == some "krita" then
      .ok (env.kritaBrush names.2.1 names.2.2)
    else
      match csp_shortcut_map.lookup t.toLower with
      | some k => .ok [.press k]
      | none => .ok []
  | _ => .error "AttributeError"

/-- The truthy-or-numeric test of the `brush_size` branch:
`if delta and delta > 0 ... elif delta and delta < 0 ...`. -/
def brushSizeEmit (delta : JValue) : Except String (List Emission) :=
  if !truthy delta then .ok []
  else
    match delta with
    | .num q => if q > 0 then .ok [.press "]"] else .ok [.press "["]
    | .bool _ => .ok [.press "]"]
    | _ => .error "TypeError"

/-- The `brush_size` branch, including the legacy `"{delta=5}"` string
parse (`int` raising `ValueError` on a malformed number). -/
def brushSizeBranch (value : JValue) : Except String (List Emission) :=
  let delta0 : JValue :=
    match value with
    | .obj fields => (fields.lookup "delta").getD .null
    | _ => .null
  if !truthy delta0 then
    match value with
    | .str s =>
      if pyContains s "delta=" then
        match strAfterFirst s "delta=" with
        | some rest =>
          match pyIntOfString (stripBraces rest) with
          | some n => brushSizeEmit (.num (n : Rat))
          | none => .error "ValueError"
        | none => .error "ValueError"
      else brushSizeEmit delta0
    | _ => brushSizeEmit delta0
  else brushSizeEmit delta0

/-- The legacy `layer` branch. -/
def layerBranch (value : JValue) : List Emission :=
  let la0 : JValue :=
    match value with
    | .obj fields => (fields.lookup "action").getD .null
    | _ => .null
  let la : JValue :=
    if !truthy la0 then
      match value with
      | .str s =>
        if pyContains s "action=new" then .str "new"
        else if pyContains s "action=delete" then .str "delete"
        else la0
      | _ => la0
    else la0
  if jEqStr la "new" then [.press "n"]
  else if jEqStr la "delete" then [.press "delete"]
  else []

/-- The favorites snapshot entry for slot `F n`, as assembled by the
`get_favorites` branch. -/
def favInfo (t : List (String × FavEntry)) (n : Nat) : SlotInfo :=
  match t.lookup ("F" ++ toString n) with
  | some e =>
    { assigned := true, icon := e.icon, description := e.description,
      command := some e.command }
  | none =>
    { assigned := false, icon := "➕",
      description := "Available F" ++ toString n, command := none }

def favSlot (t : List (String × FavEntry)) (n : Nat) : String × SlotInfo :=
  ("F" ++ toString n, favInfo t n)

/-- `favorites_data`: all twelve slots `F1 … F12`, in order. -/
def buildFavorites (t : List (String × FavEntry)) : List (String × SlotInfo) :=
  (List.range 12).map (fun i => favSlot t (i + 1))

/-- The `if action == ... elif ...` chain of `handle_message`, in source
order.  The result carries the emission trace and, for `get_favorites`,
the early-return response that replaces the standard confirmation. -/
def branchResult (env : Env) (s : String) (value : JValue) :
    Except String (List Emission × Option Response) :=
  if s = "zoom" then (handle_zoom value).map (fun e => (e, none))
  else if s = "rotate" then (handle_rotate value).map (fun e => (e, none))
  else if s = "undo" then .ok (execute_app_shortcut env "undo", none)
  else if s = "redo" then .ok (execute_app_shortcut env "redo", none)
  else if s = "tool" then .ok (toolBranch env value, none)
  else if s = "scroll" then .ok (scrollBranch value, none)
  else if s = "select_brush" ∨ s = "select_subtool" ∨ s = "select_tool" then
    (selectBranch env value).map (fun e => (e, none))
  else if s = "layer_up" then .ok (execute_app_shortcut env "layer_up", none)
  else if s = "layer_down" then .ok (execute_app_shortcut env "layer_down", none)
  else if s = "trackpad_pan" then .ok (handle_trackpad_pan env value, none)
  else if s = "canvas_pan" then .ok (canvasPanBranch value, none)
  else if s = "rotate_left" then .ok (execute_app_shortcut env "rotate_left", none)
  else if s = "rotate_right" then .ok (execute_app_shortcut env "rotate_right", none)
  else if s = "reset_canvas" then .ok ([.hotkey ["cmd", "2"]], none)
  else if s = "get_favorites" then
    .ok ([], some (.favoritesData (buildFavorites env.rescan) env.rescan.length))
  else if s = "brush_size" then (brushSizeBranch value).map (fun e => (e, none))
  else if s = "layer_new" then .ok (execute_app_shortcut env "layer_new", none)
  else if s = "layer_folder" then .ok (execute_app_shortcut env "layer_folder", none)
  else if s = "layer_merge" then .ok (execute_app_shortcut env "layer_merge_down", none)
  else if s = "layer_delete" then .ok (execute_app_shortcut env "layer_delete", none)
  else if s = "layer_goto_first" then .ok (List.replicate 20 (.press "["), none)
  else if s = "layer" then .ok (layerBranch value, none)
  else if pyStartsWith s "tool_" || pyStartsWith s "layer_" || pyStartsWith s "brush_" then
    .ok (execute_app_shortcut env s, none)
  else .ok ([], none)

/-- An inbound message: either `json.loads` raised, or it parsed. -/
inductive Wire where
  | malformed
  | parsed (v : JValue)

/-- The tail of `handle_message`: a raised branch becomes one
`{"status": "error"}` response; `get_favorites` returns its snapshot and
skips the confirmation; every other branch is followed by exactly one
`{"status": "received"}` confirmation. -/
def respond (action : String)
    (r : Except String (List Emission × Option Response)) :
    List Response × List Emission :=
  match r with
  | .error e => ([.errorStatus e], [])
  | .ok (ems, some resp) => ([resp], ems)
  | .ok (ems, none) => ([.ack "received" action], ems)

/-- `CrossPlatformArtRemoteServer.handle_message`.  `st` is the stale
`self.csp_favorites` table at entry (the `get_favorites` branch re-scans
and uses the fresh table `env.rescan` instead).  The result is the list
of responses sent on the channel and the emission trace, in order. -/
def handle_message (require_auth authed : Bool) (env : Env)
    (st : List (String × FavEntry)) (msg : Wire) :
    List Response × List Emission :=
  if require_auth && !authed then ([.errorType "Authentication required"], [])
  else
    match msg with
    | .malformed => ([], [])
    | .parsed v =>
      match v with
      | .obj fields =>
        match (fields.lookup "action").getD .null with
        | .str s =>
          respond s (branchResult env s ((fields.lookup "value").getD .null))
        | _ => ([.errorStatus "AttributeError"], [])
      | _ => ([.errorStatus "AttributeError"], [])

/-- A concrete dispatch environment for closed evaluations. -/
def envFix : Env :=
  { platform := "Darwin", current_app := some "krita", rescan := [],
    kritaBrush := fun _ _ => [], regexDeltas := fun _ => (0, 0) }

/-- The action names matched explicitly by the `elif` chain of
`handle_message` (the decomposition rules and special commands), in
source order. -/
def handledActions : List String :=
  ["zoom", "rotate", "undo", "redo", "tool", "scroll",
   "select_brush", "select_subtool", "select_tool",
   "layer_up", "layer_down", "trackpad_pan", "canvas_pan",
   "rotate_left", "rotate_right", "reset_canvas", "get_favorites",
   "brush_size", "layer_new", "layer_folder", "layer_merge",
   "layer_delete", "layer_goto_first", "layer"]

/-- `action` has no entry in any built-in shortcut table of any
application on any platform. -/
def tablesAbsent (action : String) : Bool :=
  app_configs.all (fun a => a.2.all (fun p => ((p.2).lookup action).isNone))

theorem mem_of_lookup {β : Type} {l : List (String × β)} {k : String} {v : β}
    (h : l.lookup k = some v) : (k, v) ∈ l := by
  induction l with
  | nil => simp [List.lookup] at h
  | cons a t ih =>
    cases a with
    | mk ka va =>
      simp only [List.lookup] at h
      split at h
      · next heq =>
        have hk : k = ka := by simpa using heq
        subst hk
        cases h
        exact List.mem_cons_self _ _
      · exact List.mem_cons_of_mem _ (ih h)

theorem execute_app_shortcut_absent (env : Env) (action : String)
    (h2 : tablesAbsent action = true) : execute_app_shortcut env action = [] := by
  unfold execute_app_shortcut
  split
  · rfl
  next app happ =>
    split
    · rfl
    next platMap hcfg =>
      split
      · rfl
      next table hplat =>
        have h3 := (List.all_eq_true.mp h2) _ (mem_of_lookup hcfg)
        have h4 := (List.all_eq_true.mp h3) _ (mem_of_lookup hplat)
        simp only [Option.isNone_iff_eq_none] at h4
        rw [h4]
        split <;> rfl

theorem branchResult_unhandled (env : Env) (action : String) (value : JValue)
    (h1 : action ∉ handledActions) (h2 : tablesAbsent action = true) :
    branchResult env action value = .ok ([], none) := by
  simp only [handledActions, List.mem_cons, List.not_mem_nil, or_false,
    not_or] at h1
  obtain ⟨e01, e02, e03, e04, e05, e06, e07, e08, e09, e10, e11, e12, e13,
    e14, e15, e16, e17, e18, e19, e20, e21, e22, e23, e24⟩ := h1
  unfold branchResult
  rw [if_neg e01, if_neg e02, if_neg e03, if_neg e04, if_neg e05, if_neg e06,
    if_neg (not_or.mpr ⟨e07, not_or.mpr ⟨e08, e09⟩⟩),
    if_neg e10, if_neg e11, if_neg e12, if_neg e13, if_neg e14, if_neg e15,
    if_neg e16, if_neg e17, if_neg e18, if_neg e19, if_neg e20, if_neg e21,
    if_neg e22, if_neg e23, if_neg e24]
  by_cases hb : (pyStartsWith action "tool_" || pyStartsWith action "layer_"
      || pyStartsWith action "brush_") = true
  · rw [if_pos hb, execute_app_shortcut_absent env action h2]
  · rw [if_neg hb]

/-! ### Claim theorems: dispatcher -/

/-- C1 counterexample: dispatching the action `"foobar"` — absent from
every shortcut table and every decomposition rule — on an authenticated
session yields a single `{"status": "received"}` acknowledgement, not an
"unknown" status (the unknown action is only logged). -/
theorem C1_counterexample :
    handle_message true true envFix [] (.parsed (.obj [("action", .str "foobar")]))
      = ([.ack "received" "foobar"], [])
    ∧ Response.ack "received" "foobar" ≠ .ack "unknown" "foobar" :=
  ⟨rfl, by decide⟩

/-- C1 (amended): for every action name absent from every shortcut table
and from the dispatcher's explicit branch list, dispatch on an
authenticated session logs the unknown action, sends exactly one
`{"status": "received"}` acknowledgement naming the action, and never
invokes the input-emission collaborator. -/
theorem C1_unknown_action_received_ack (env : Env)
    (st : List (String × FavEntry)) (action : String) (value : JValue)
    (h1 : action ∉ handledActions) (h2 : tablesAbsent action = true) :
    handle_message true true env st
      (.parsed (.obj [("action", .str action), ("value", value)]))
      = ([.ack "received" action], []) := by
  have hstep : handle_message true true env st
      (.parsed (.obj [("action", .str action), ("value", value)]))
      = respond action (branchResult env action value) := rfl
  rw [hstep, branchResult_unhandled env action value h1 h2]
  rfl

/-- Witness for C1 at the concrete unmapped action `"mystery_action"`. -/
theorem C1_witness :
    handle_message true true envFix []
      (.parsed (.obj [("action", .str "mystery_action"), ("value", .null)]))
      = ([.ack "received" "mystery_action"], []) :=
  C1_unknown_action_received_ack envFix [] "mystery_action" .null
    (by decide) (by decide)

theorem respond_singleton (a : String)
    (r : Except String (List Emission × Option Response)) :
    ((respond a r).1).length = 1 := by
  cases r with
  | error e => rfl
  | ok p =>
    obtain ⟨ems, resp⟩ := p
    cases resp <;> rfl

/-- C2 counterexample: a message that fails `json.loads` receives no
response at all on an authenticated session (the decode error is only
logged), refuting "exactly one response per message". -/
theorem C2_counterexample :
    handle_message true true envFix [] .malformed = ([], [])
    ∧ ((handle_message true true envFix [] .malformed).1).length ≠ 1 :=
  ⟨rfl, by decide⟩

/-- C2 (amended): on an authenticated session every message that parses
as JSON gets exactly one response (an error response when the handling
raises), while a message that is not valid JSON gets no response; in both
cases the dispatcher returns normally and the session continues. -/
theorem C2_response_discipline (env : Env) (st : List (String × FavEntry))
    (v : JValue) :
    ((handle_message true true env st (.parsed v)).1).length = 1
    ∧ handle_message true true env st .malformed = ([], []) := by
  constructor
  · cases v with
    | obj fields =>
      show ((match (fields.lookup "action").getD JValue.null with
        | JValue.str s =>
          respond s (branchResult env s ((fields.lookup "value").getD JValue.null))
        | _ => (([.errorStatus "AttributeError"] : List Response),
            ([] : List Emission))).1).length = 1
      cases (fields.lookup "action").getD JValue.null with
      | str s => exact respond_singleton s _
      | null => rfl
      | bool b => rfl
      | num q => rfl
      | arr l => rfl
      | obj l => rfl
    | null => rfl
    | bool b => rfl
    | num q => rfl
    | str s => rfl
    | arr l => rfl
  · rfl

/-- C6 counterexample: the zoom command with direction `in` and intensity
`1.5` produces exactly one emission — the hard-coded `cmd +` hotkey — not
the claimed 3–4 intensity-scaled repeats. -/
theorem C6_counterexample :
    (handle_message true true envFix []
      (.parsed (.obj [("action", .str "zoom"),
        ("value", .obj [("direction", .str "in"), ("intensity", .num (3/2))])]))).2
      = [.hotkey ["cmd", "+"]]
    ∧ ((handle_message true true envFix []
      (.parsed (.obj [("action", .str "zoom"),
        ("value", .obj [("direction", .str "in"), ("intensity", .num (3/2))])]))).2).length = 1
    ∧ ¬ (3 ≤ 1 ∧ 1 ≤ 4) :=
  ⟨rfl, rfl, by decide⟩

/-- C6 (amended): dispatching
`{action: "zoom", value: {direction: "in", intensity: …}}` emits exactly
one zoom-in key emission (`cmd +`), whatever the intensity, followed by a
single ordered `{"status": "received"}` acknowledgement at the end. -/
theorem C6_zoom_single_emission (env : Env) (st : List (String × FavEntry))
    (intensity : JValue) :
    handle_message true true env st (.parsed (.obj [("action", .str "zoom"),
      ("value", .obj [("direction", .str "in"), ("intensity", intensity)])]))
      = ([.ack "received" "zoom"], [.hotkey ["cmd", "+"]]) := rfl

theorem buildFavorites_lookup (t : List (String × FavEntry)) (n : Nat)
    (h1 : 1 ≤ n) (h2 : n ≤ 12) :
    (buildFavorites t).lookup ("F" ++ toString n) = some (favInfo t n) := by
  interval_cases n <;> rfl

/-- C9: a `get_favorites` command on an authenticated session sends
exactly one `favorites_data` response — built from the freshly re-scanned
table, whatever favorites table was cached at entry — containing all
twelve slots `F1 … F12` (an unassigned slot appears with
`assigned = false` and `command = null`, an assigned one mirrors its
entry), together with the `total_assigned` count, and sends no execution
acknowledgement and no emission. -/
theorem C9_get_favorites_snapshot (env : Env) (st : List (String × FavEntry))
    (value : JValue) (n : Nat) (h1 : 1 ≤ n) (h2 : n ≤ 12) :
    handle_message true true env st
      (.parsed (.obj [("action", .str "get_favorites"), ("value", value)]))
      = ([.favoritesData (buildFavorites env.rescan) env.rescan.length], [])
    ∧ (buildFavorites env.rescan).length = 12
    ∧ (env.rescan.lookup ("F" ++ toString n) = none →
        (buildFavorites env.rescan).lookup ("F" ++ toString n)
          = some { assigned := false, icon := "➕",
                   description := "Available F" ++ toString n, command := none })
    ∧ (∀ e, env.rescan.lookup ("F" ++ toString n) = some e →
        (buildFavorites env.rescan).lookup ("F" ++ toString n)
          = some { assigned := true, icon := e.icon,
                   description := e.description, command := some e.command }) := by
  refine ⟨rfl, by simp [buildFavorites], ?_, ?_⟩
  · intro h
    rw [buildFavorites_lookup env.rescan n h1 h2]
    simp [favInfo, h]
  · intro e h
    rw [buildFavorites_lookup env.rescan n h1 h2]
    simp [favInfo, h]

/-- A dispatch environment whose re-scan discovers one custom tool in
slot `F5`. -/
def envFav : Env :=
  { platform := "Darwin", current_app := some "clip_studio_paint",
    rescan := [("F5", toolFavEntry "Watercolor" 41)],
    kritaBrush := fun _ _ => [], regexDeltas := fun _ => (0, 0) }

/-- Witness for C9: the snapshot response for a one-entry table, an
unassigned slot (`F4`) and the assigned slot (`F5`). -/
theorem C9_witness :
    handle_message true true envFav []
      (.parsed (.obj [("action", .str "get_favorites"), ("value", .null)]))
      = ([.favoritesData (buildFavorites envFav.rescan) 1], [])
    ∧ (buildFavorites envFav.rescan).lookup "F4"
        = some { assigned := false, icon := "➕",
                 description := "Available F4", command := none }
    ∧ (buildFavorites envFav.rescan).lookup "F5"
        = some { assigned := true, icon := (toolFavEntry "Watercolor" 41).icon,
                 description := "Watercolor", command := some "custom_tool_41" } :=
  ⟨(C9_get_favorites_snapshot envFav [] .null 4 (by decide) (by decide)).1,
   (C9_get_favorites_snapshot envFav [] .null 4 (by decide) (by decide)).2.2.1 rfl,
   (C9_get_favorites_snapshot envFav [] .null 5 (by decide) (by decide)).2.2.2
     (toolFavEntry "Watercolor" 41) rfl⟩

end ArtRemote
